import Mathlib

/-
Verification model of matrix-media-repo's URL-preview safe fetcher
(src/url_previewing/http.go), media ingestion pipeline
(services/media_service/media_service.go), and the remote-media
resource handler described by the specification.

Strings manipulated by the glob matcher are modelled as `List Char`;
byte streams are modelled by the number of bytes they can yield.
-/

/-! ### Glob matching (github.com/ryanuber/go-glob, used by downloadRawContent) -/

/-- Model of strings.Split(s, "*"): split a string on each `*` character. -/
def splitOnStar : List Char → List (List Char)
  | [] => [[]]
  | c :: rest =>
    let tail := splitOnStar rest
    if c = '*' then [] :: tail
    else
      match tail with
      | [] => [[c]]
      | h :: t => (c :: h) :: t

/-- Model of strings.Index(subj, part): index of the first occurrence of
`part` inside `subj`, or `none` when absent (Go returns -1). -/
def strIndex (part : List Char) : List Char → Option Nat
  | [] => if part.isPrefixOf ([] : List Char) then some 0 else none
  | c :: rest =>
    if part.isPrefixOf (c :: rest) then some 0
    else (strIndex part rest).map (fun n => n + 1)

/-- Middle-and-last sections of go-glob's matching loop (iterations i ≥ 1):
each middle part must occur somewhere in the remaining subject, which is then
trimmed past it; the final section matches when the pattern ends in `*` or the
remaining subject ends with the last part. -/
def globMid (trailing : Bool) : List (List Char) → List Char → Bool
  | [], _ => true
  | [last], subj => trailing || last.isSuffixOf subj
  | p :: p2 :: rest, subj =>
    match strIndex p subj with
    | none => false
    | some idx => globMid trailing (p2 :: rest) (subj.drop (idx + p.length))

/-- First section of go-glob's matching loop (iteration i = 0): unless the
pattern starts with `*`, the first part must occur at index 0. When the
pattern starts with `*` the first part is empty, so its index is always 0;
the `none` branch is then unreachable. -/
def globFirst (leading trailing : Bool) : List (List Char) → List Char → Bool
  | [], _ => true
  | [last], subj => trailing || last.isSuffixOf subj
  | p :: p2 :: rest, subj =>
    match strIndex p subj with
    | none => false
    | some idx =>
      if !leading && idx != 0 then false
      else globMid trailing (p2 :: rest) (subj.drop (idx + p.length))

/-- Model of glob.Glob(pattern, subj) from github.com/ryanuber/go-glob. -/
def glob (pattern subj : List Char) : Bool :=
  if pattern.isEmpty then subj.isEmpty
  else if pattern == ['*'] then true
  else
    let parts := splitOnStar pattern
    if parts.length == 1 then subj == pattern
    else
      globFirst ((['*'] : List Char).isPrefixOf pattern)
        ((['*'] : List Char).isSuffixOf pattern) parts subj

/-! ### Safe HTTP fetcher: response processing (downloadRawContent, downloadImage) -/

/-- Errors produced by the response-processing half of the fetcher.
`transferError` models `errors.New("error during transfer")` — note it
carries no payload, exactly like the Go error value. `mediaTooLarge`
models common.ErrMediaTooLarge; `previewUnsupported` models
ErrPreviewUnsupported. -/
inductive FetchError where
  | transferError
  | mediaTooLarge
  | previewUnsupported
  deriving DecidableEq

/-- An http.Response as seen by downloadRawContent/downloadImage:
status code, declared ContentLength (-1 when unknown), Content-Type
header, actual body length in bytes, and the Content-Disposition
filename parameter when the header parsed and carried one. -/
structure Response where
  statusCode : Int
  contentLength : Int
  contentType : List Char
  bodyLen : Nat
  dispositionFilename : Option String
  deriving DecidableEq

/-- Model of io.LimitReader(body, n): a stream over the body that yields at
most n bytes. Streams are modelled by the byte count they can yield. -/
def limitReader (bodyLen : Nat) (n : Int) : Nat := min bodyLen n.toNat

/-- Successful result of downloadRawContent. `reader = none` models a nil
io.ReadCloser (the Go code declares `var reader io.ReadCloser` and only
assigns it inside the `MaxPageSizeBytes > 0` branch). -/
structure RawContent where
  reader : Option Nat
  filename : String
  contentType : List Char
  deriving DecidableEq

/-- Model of downloadRawContent's handling of a response it received:
status check, declared-length ceiling check, limited reader construction,
content-type glob checks (the loop fails as soon as one supplied pattern
does not match), and filename extraction. -/
def downloadRawContent (resp : Response) (supportedTypes : List (List Char))
    (maxPageSizeBytes : Int) : Except FetchError RawContent :=
  if resp.statusCode ≠ 200 then .error .transferError
  else if maxPageSizeBytes > 0 ∧ resp.contentLength ≥ 0 ∧
      resp.contentLength > maxPageSizeBytes then .error .mediaTooLarge
  else
    let reader : Option Nat :=
      if maxPageSizeBytes > 0 then some (limitReader resp.bodyLen maxPageSizeBytes)
      else none
    if supportedTypes.all (fun t => glob t resp.contentType) then
      .ok ⟨reader, resp.dispositionFilename.getD "", resp.contentType⟩
    else .error .previewUnsupported

/-! ### Safe HTTP fetcher: connection establishment (doHttpGet) -/

/-- Errors of the connection hook in doHttpGet. `resolverRejected` stands
for any error returned by getSafeAddress; the other three are the literal
errors.New values of the hook. -/
inductive DialError where
  | invalidNetwork
  | resolverRejected
  | unexpectedScheme
  | unexpectedHost
  deriving DecidableEq

/-- The parsed URL data the hook consults: ParsedUrl.Scheme and
ParsedUrl.Host. -/
structure UrlPayload where
  scheme : String
  host : String
  deriving DecidableEq

/-- Model of net.JoinHostPort: hosts containing a colon are bracketed. -/
def joinHostPort (host port : String) : String :=
  if host.toList.contains ':' then "[" ++ host ++ "]:" ++ port
  else host ++ ":" ++ port

/-- Address gate at the end of the dialContext closure (lines computing
expectedAddr/altAddr/returnAddr): the requested address must textually
equal the expected URL-host:safePort address, or the URL-host:altPort
address when an alternate port is set; on a match the dial goes to the
resolved IP joined with the matched port, otherwise the dial is refused. -/
def dialGate (urlHost safeIp safePort altPort addr : String) : Except DialError String :=
  if addr = joinHostPort urlHost safePort then
    .ok (joinHostPort safeIp safePort)
  else if addr = joinHostPort urlHost altPort ∧ altPort ≠ "" then
    .ok (joinHostPort safeIp altPort)
  else .error .unexpectedHost

/-- Model of the dialContext closure of doHttpGet. The Safe Address
Resolver getSafeAddress (whose source is outside this excerpt) is a
parameter: `resolve addr = some (safeIp, safePort)` models a successful,
policy-checked resolution of the requested address, `none` a rejection
(getSafeAddress returns an empty port when the address carried none).
When the resolved port is empty the scheme of the original URL picks the
safe port and the alternate redirect port; otherwise the resolved port is
the only accepted one. On success the hook returns the address actually
dialed. -/
def dialContext (url : UrlPayload) (resolve : String → Option (String × String))
    (network addr : String) : Except DialError String :=
  if network ≠ "tcp" then .error .invalidNetwork
  else
    match resolve addr with
    | none => .error .resolverRejected
    | some (safeIp, port0) =>
      if port0 = "" then
        if url.scheme = "http" then dialGate url.host safeIp "80" "443" addr
        else if url.scheme = "https" then dialGate url.host safeIp "443" "80" addr
        else .error .unexpectedScheme
      else dialGate url.host safeIp port0 "" addr

/-- A connection attempt made by the client built in doHttpGet: either the
dial went through the dialContext hook (and hence through getSafeAddress)
and connected to the hook's returned target, or it was a raw dial straight
to the requested address with no resolver involvement. -/
inductive ConnAttempt where
  | checked (target : String)
  | unchecked (target : String)
  deriving DecidableEq

/-- Model of which dial path a connection of doHttpGet's client takes.
Per net/http's documented Transport behavior, when DialTLS is non-nil it is
used for HTTPS requests and the Dial/DialContext hook is not used for them;
doHttpGet installs a DialTLS only when UnsafeCertificates is enabled, and
that DialTLS calls net.Dial(network, addr) on the requested address
directly, never invoking getSafeAddress. Every other connection goes
through the dialContext hook. `connScheme` is the scheme of the connection
being established (after possible redirects). -/
def connectionAttempt (unsafeCertificates : Bool) (url : UrlPayload)
    (resolve : String → Option (String × String))
    (connScheme network addr : String) : Except DialError ConnAttempt :=
  if connScheme = "https" ∧ unsafeCertificates then
    .ok (.unchecked addr)
  else
    (dialContext url resolve network addr).map .checked

/-- Successful result of downloadImage. -/
structure ImageResult where
  contentType : List Char
  dataLen : Nat
  filename : Option String
  deriving DecidableEq

/-- Model of downloadImage's handling of a response it received: status
check, then the image is built from the body; the filename is set only when
the Content-Disposition parsed and carried a non-empty filename. -/
def downloadImage (resp : Response) : Except FetchError ImageResult :=
  if resp.statusCode ≠ 200 then .error .transferError
  else
    let filename : Option String :=
      match resp.dispositionFilename with
      | some f => if f ≠ "" then some f else none
      | none => none
    .ok ⟨resp.contentType, resp.bodyLen, filename⟩

/-! ### Media ingestion (mediaService.StoreMedia) -/

/-- The types.Media record as used by StoreMedia. -/
structure Media where
  origin : String
  mediaId : String
  uploadName : String
  contentType : String
  userId : String
  sha256Hash : String
  sizeBytes : Int
  location : String
  creationTs : Int
  deriving DecidableEq

/-- Failures of the collaborators StoreMedia calls. -/
inductive StoreError where
  | persistFailed
  | hashFailed
  | getByHashFailed
  | sizeFailed
  | insertFailed
  deriving DecidableEq

/-- What became of the temporary file created by storage.PersistFile by the
time StoreMedia returns:
`noFile` — PersistFile itself failed, no temp file exists;
`removed` — os.Remove was called on it;
`renamed dst` — os.Rename moved it to the returned record's location;
`promoted` — it stayed where it is and that path is the new record's
permanent Location (the unique-media success path);
`leaked` — StoreMedia returned while the file still exists at the temp
path and no returned record points at it. -/
inductive TempFate where
  | noFile
  | removed
  | renamed (dst : String)
  | promoted
  | leaked
  deriving DecidableEq

/-- Environment of one StoreMedia call: the outcomes of its collaborator
calls (storage.PersistFile, storage.GetFileHash, store.GetByHash,
util.FileSize, store.Insert, util.FileExists), the clock, and the id
generateMediaId would produce. `fileExists loc = none` models
util.FileExists returning an error. -/
structure StoreEnv where
  persistResult : Except StoreError String
  hashResult : Except StoreError String
  getByHashResult : Except StoreError (List Media)
  sizeResult : Except StoreError Int
  insertOk : Bool
  fileExists : String → Option Bool
  nowMillis : Int
  generatedId : String

deriving instance DecidableEq for Except

/-- Whether StoreMedia treats the call as having a generated media id
(the caller passed an empty mediaId). -/
def isGeneratedId (mediaId0 : String) : Bool := mediaId0 == ""

/-- The media id StoreMedia actually uses: the caller's, or a generated one
when the caller's is empty. -/
def effectiveMediaId (env : StoreEnv) (mediaId0 : String) : String :=
  if mediaId0 == "" then env.generatedId else mediaId0

/-- The duplicate-record test of StoreMedia's loop: same origin, and either
the same media id or the request's media id was generated. -/
def matchesRequest (host mediaId : String) (isGen : Bool) (m : Media) : Bool :=
  m.origin == host && (m.mediaId == mediaId || isGen)

/-- Model of overwriteExistingOrDeleteTempFile: when the record's file
exists the temp file is removed; on a FileExists error or a missing file
the temp file is renamed to the record's location. -/
def overwriteExistingOrDeleteTempFile (env : StoreEnv) (m : Media) : TempFate :=
  match env.fileExists m.location with
  | some true => .removed
  | _ => .renamed m.location

/-- Outcome of a StoreMedia call: the returned value, the records passed to
store.Insert, and the fate of the temporary file. -/
structure StoreOutcome where
  result : Except StoreError Media
  insertAttempts : List Media
  tempFate : TempFate
  deriving DecidableEq

/-- Model of mediaService.StoreMedia. Mirrors the Go control flow:
persist to a temp file; hash it; look up records with the same hash; with
duplicates, return the first (origin, mediaId) match unaltered, otherwise
synthesize a new record from the last duplicate and insert it (note the
insert-failure exit of this branch performs no temp-file cleanup); with no
duplicates, build a fresh record whose Location is the temp path and
insert it. -/
def storeMedia (env : StoreEnv) (contentType filename userId host mediaId0 : String) :
    StoreOutcome :=
  let isGen := isGeneratedId mediaId0
  let mediaId := effectiveMediaId env mediaId0
  match env.persistResult with
  | .error e => ⟨.error e, [], .noFile⟩
  | .ok fileLocation =>
    match env.hashResult with
    | .error e => ⟨.error e, [], .removed⟩
    | .ok hash =>
      match env.getByHashResult with
      | .error e => ⟨.error e, [], .removed⟩
      | .ok records =>
        match records with
        | r0 :: rest =>
          match (r0 :: rest).find? (fun m => matchesRequest host mediaId isGen m) with
          | some m => ⟨.ok m, [], overwriteExistingOrDeleteTempFile env m⟩
          | none =>
            let last := rest.getLastD r0
            let m : Media :=
              { last with
                origin := host
                userId := userId
                mediaId := mediaId
                uploadName := filename
                contentType := contentType
                creationTs := env.nowMillis }
            if env.insertOk then
              ⟨.ok m, [m], overwriteExistingOrDeleteTempFile env m⟩
            else
              ⟨.error .insertFailed, [m], .leaked⟩
        | [] =>
          match env.sizeResult with
          | .error e => ⟨.error e, [], .removed⟩
          | .ok fileSize =>
            let m : Media :=
              ⟨host, mediaId, filename, contentType, userId, hash, fileSize,
                fileLocation, env.nowMillis⟩
            if env.insertOk then ⟨.ok m, [m], .promoted⟩
            else ⟨.error .insertFailed, [m], .removed⟩

/-! ### Remote media resource handler (coalescing registry) -/

/-- A RemoteFetchKey: the (origin, mediaId) pair a remote download is
keyed by. -/
structure Key where
  origin : String
  mediaId : String
  deriving DecidableEq

/-- The shared result a coalesced download delivers to each waiter. -/
abbrev DlResult := Except StoreError Media

/-- Modelled from the spec: the shared registry of InFlightDownloads
(the resource handler's source is not part of the excerpt). `inFlight`
maps each in-flight key to its registered waiters, `fetchesStarted` logs
every outbound fetch that was started, and `delivered` logs every result
handed to a waiter. -/
structure HState where
  inFlight : List (Key × List Nat)
  fetchesStarted : List Key
  delivered : List (Nat × Key × DlResult)
  deriving DecidableEq

/-- Waiters registered for a key, if the key is in flight. -/
def lookupWaiters (l : List (Key × List Nat)) (k : Key) : Option (List Nat) :=
  match l with
  | [] => none
  | (k1, ws) :: rest => if k1 = k then some ws else lookupWaiters rest k

/-- Register one more waiter on an in-flight key. -/
def addWaiter (l : List (Key × List Nat)) (k : Key) (c : Nat) :
    List (Key × List Nat) :=
  match l with
  | [] => []
  | (k1, ws) :: rest =>
    if k1 = k then (k1, c :: ws) :: rest else (k1, ws) :: addWaiter rest k c

/-- Drop a key's registry entry. -/
def removeKey (l : List (Key × List Nat)) (k : Key) : List (Key × List Nat) :=
  match l with
  | [] => []
  | (k1, ws) :: rest =>
    if k1 = k then rest else (k1, ws) :: removeKey rest k

/-- Events of the resource handler: a caller requests a download of a key,
or the single fetch of a key completes with a result. -/
inductive HEvent where
  | request (k : Key) (c : Nat)
  | complete (k : Key) (r : DlResult)

/-- Modelled from the spec: one registry transition of the resource
handler (RequestDownload / fetch completion; the handler's source is not
part of the excerpt). A request for an in-flight key only registers an
extra waiter; a request for an absent key creates the entry and starts the
one outbound fetch; completion broadcasts the single result to every
registered waiter of the key and removes the entry. -/
def step (s : HState) (e : HEvent) : HState :=
  match e with
  | .request k c =>
    match lookupWaiters s.inFlight k with
    | some _ => { s with inFlight := addWaiter s.inFlight k c }
    | none =>
      { s with
        inFlight := (k, [c]) :: s.inFlight
        fetchesStarted := k :: s.fetchesStarted }
  | .complete k r =>
    match lookupWaiters s.inFlight k with
    | some ws =>
      { s with
        inFlight := removeKey s.inFlight k
        delivered := ws.map (fun c => (c, k, r)) ++ s.delivered }
    | none => s

/-- Run a sequence of handler events. -/
def run (s : HState) (evs : List HEvent) : HState := evs.foldl step s

/-! ### Theorems -/

/-- C1: the claim states every connection of doHttpGet, including TLS
connections under unsafe-certificates mode, is preceded by a passing
getSafeAddress check. The code violates this: with UnsafeCertificates
enabled the Transport's DialTLS handles every HTTPS dial and calls
net.Dial on the requested address directly. Here a resolver that rejects
every address (so dialContext refuses the dial) still sees the HTTPS
connection proceed unchecked to the attacker-influenced address. -/
theorem C1_unsafe_tls_dial_bypasses_resolver :
    dialContext ⟨"https", "internal.example"⟩ (fun _ => none) "tcp"
        "internal.example:443" = .error .resolverRejected ∧
    connectionAttempt true ⟨"https", "internal.example"⟩ (fun _ => none) "https"
        "tcp" "internal.example:443" = .ok (.unchecked "internal.example:443") := by
  decide

/-- Inversion of the address gate: a permitted dial matched the expected
or (when set) alternate address and went to the resolved IP joined with
the matched port. -/
theorem dialGate_ok (urlHost safeIp safePort altPort addr d : String)
    (h : dialGate urlHost safeIp safePort altPort addr = .ok d) :
    (addr = joinHostPort urlHost safePort ∧ d = joinHostPort safeIp safePort) ∨
    (altPort ≠ "" ∧ addr = joinHostPort urlHost altPort ∧
      d = joinHostPort safeIp altPort) := by
  unfold dialGate at h
  split at h
  · exact Or.inl ⟨by assumption, (Except.ok.injEq _ _).mp h.symm⟩
  · split at h
    · rename_i hc
      exact Or.inr ⟨hc.2, hc.1, (Except.ok.injEq _ _).mp h.symm⟩
    · exact absurd h (by simp)

/-- C2: every dial permitted by the dialContext hook had its requested
address textually equal to JoinHostPort(urlHost, safePort) or, with a
non-empty alternate port, JoinHostPort(urlHost, altPort); the alternate
port is non-empty only when the resolved port was empty (the URL carried
no explicit port), with http giving 80/443 and https giving 443/80; and
the connection goes to the resolver-returned IP joined with the matched
port, never to the requested hostname. -/
theorem C2_dial_gate (url : UrlPayload) (resolve : String → Option (String × String))
    (network addr d : String)
    (h : dialContext url resolve network addr = .ok d) :
    ∃ safeIp port0 safePort altPort,
      resolve addr = some (safeIp, port0) ∧
      ((port0 ≠ "" ∧ safePort = port0 ∧ altPort = "") ∨
       (port0 = "" ∧
         ((url.scheme = "http" ∧ safePort = "80" ∧ altPort = "443") ∨
          (url.scheme = "https" ∧ safePort = "443" ∧ altPort = "80")))) ∧
      ((addr = joinHostPort url.host safePort ∧ d = joinHostPort safeIp safePort) ∨
       (altPort ≠ "" ∧ addr = joinHostPort url.host altPort ∧
         d = joinHostPort safeIp altPort)) := by
  unfold dialContext at h
  split at h
  · exact absurd h (by simp)
  · cases hres : resolve addr with
    | none => rw [hres] at h; exact absurd h (by simp)
    | some pr =>
      obtain ⟨safeIp, port0⟩ := pr
      rw [hres] at h
      dsimp only at h
      by_cases hp : port0 = ""
      · rw [if_pos hp] at h
        by_cases hhttp : url.scheme = "http"
        · rw [if_pos hhttp] at h
          exact ⟨safeIp, port0, "80", "443", rfl,
            Or.inr ⟨hp, Or.inl ⟨hhttp, rfl, rfl⟩⟩, dialGate_ok _ _ _ _ _ _ h⟩
        · rw [if_neg hhttp] at h
          by_cases hhttps : url.scheme = "https"
          · rw [if_pos hhttps] at h
            exact ⟨safeIp, port0, "443", "80", rfl,
              Or.inr ⟨hp, Or.inr ⟨hhttps, rfl, rfl⟩⟩, dialGate_ok _ _ _ _ _ _ h⟩
          · rw [if_neg hhttps] at h
            exact absurd h (by simp)
      · rw [if_neg hp] at h
        exact ⟨safeIp, port0, port0, "", rfl, Or.inl ⟨hp, rfl, rfl⟩,
          dialGate_ok _ _ _ _ _ _ h⟩

/-- C2 witness: a concrete permitted dial, with the resolver returning
93.184.216.34 and no explicit port for example.com:80 under an http URL. -/
theorem C2_dial_gate_witness :
    ∃ safeIp port0 safePort altPort,
      (fun a => if a = "example.com:80" then some ("93.184.216.34", "") else none)
          "example.com:80" = some (safeIp, port0) ∧
      ((port0 ≠ "" ∧ safePort = port0 ∧ altPort = "") ∨
       (port0 = "" ∧
         (((⟨"http", "example.com"⟩ : UrlPayload).scheme = "http" ∧
            safePort = "80" ∧ altPort = "443") ∨
          ((⟨"http", "example.com"⟩ : UrlPayload).scheme = "https" ∧
            safePort = "443" ∧ altPort = "80")))) ∧
      (("example.com:80" = joinHostPort (⟨"http", "example.com"⟩ : UrlPayload).host safePort ∧
          "93.184.216.34:80" = joinHostPort safeIp safePort) ∨
       (altPort ≠ "" ∧
          "example.com:80" = joinHostPort (⟨"http", "example.com"⟩ : UrlPayload).host altPort ∧
          "93.184.216.34:80" = joinHostPort safeIp altPort)) :=
  C2_dial_gate ⟨"http", "example.com"⟩
    (fun a => if a = "example.com:80" then some ("93.184.216.34", "") else none)
    "tcp" "example.com:80" "93.184.216.34:80" (by decide)

/-- A stored record for a different origin, used to exercise the
duplicate-synthesis branch of StoreMedia. -/
def mediaB : Media :=
  ⟨"b.example", "mediaB", "b.txt", "text/plain", "@b:b.example", "hashX", 12,
    "/media/hashX", 1000⟩

/-- Environment of a StoreMedia call that finds one duplicate-hash record
for another origin and whose store.Insert fails. -/
def envC3 : StoreEnv :=
  ⟨.ok "/tmp/tmp123", .ok "hashX", .ok [mediaB], .ok 12, false,
    fun _ => some true, 2000, "generated-id"⟩

/-- C3: the claim states the temporary file is gone on every outcome,
including when store.Insert fails in the duplicate-synthesis branch. The
code violates this: that branch returns the insert error without calling
os.Remove or os.Rename (every other error exit does), so the temp file is
leaked. Evaluated here at a concrete such call. -/
theorem C3_insert_failure_leaks_temp_file :
    (storeMedia envC3 "text/plain" "a.txt" "@a:a.example" "a.example" "mediaA").result
        = .error .insertFailed ∧
    (storeMedia envC3 "text/plain" "a.txt" "@a:a.example" "a.example" "mediaA").tempFate
        = .leaked := by
  decide

/-- C4: when some duplicate-hash record matches the request's origin and
media id (exactly, or any record of the origin when the id was generated),
StoreMedia returns a matching stored record with all fields unaltered and
attempts no insert, whatever the request's contentType, userId or
filename. -/
theorem C4_identity_match_returns_unaltered (env : StoreEnv)
    (ct fn uid host mid0 loc hsh : String) (records : List Media)
    (hp : env.persistResult = .ok loc)
    (hh : env.hashResult = .ok hsh)
    (hg : env.getByHashResult = .ok records)
    (hex : ∃ r ∈ records,
      matchesRequest host (effectiveMediaId env mid0) (isGeneratedId mid0) r = true) :
    ∃ m ∈ records,
      matchesRequest host (effectiveMediaId env mid0) (isGeneratedId mid0) m = true ∧
      (storeMedia env ct fn uid host mid0).result = .ok m ∧
      (storeMedia env ct fn uid host mid0).insertAttempts = [] := by
  cases records with
  | nil =>
    obtain ⟨r, hr, _⟩ := hex
    cases hr
  | cons r0 rest =>
    have hfind : ((r0 :: rest).find?
        (fun m => matchesRequest host (effectiveMediaId env mid0) (isGeneratedId mid0) m)).isSome := by
      rw [List.find?_isSome]
      obtain ⟨r, hr, hmr⟩ := hex
      exact ⟨r, hr, hmr⟩
    obtain ⟨m, hm⟩ := Option.isSome_iff_exists.mp hfind
    refine ⟨m, List.mem_of_find?_eq_some hm, List.find?_some hm, ?_, ?_⟩ <;>
      simp [storeMedia, hp, hh, hg, hm]

/-- C4 witness: re-ingesting under the same (origin, mediaId) with a
different content type, user and filename returns the stored record. -/
theorem C4_identity_match_witness :
    ∃ m ∈ [mediaB],
      matchesRequest "b.example"
        (effectiveMediaId ⟨.ok "/tmp/t9", .ok "hashX", .ok [mediaB], .ok 12, true,
          fun _ => some true, 2000, "generated-id"⟩ "mediaB") (isGeneratedId "mediaB") m = true ∧
      (storeMedia ⟨.ok "/tmp/t9", .ok "hashX", .ok [mediaB], .ok 12, true,
          fun _ => some true, 2000, "generated-id"⟩
        "image/png" "other.png" "@c:b.example" "b.example" "mediaB").result = .ok m ∧
      (storeMedia ⟨.ok "/tmp/t9", .ok "hashX", .ok [mediaB], .ok 12, true,
          fun _ => some true, 2000, "generated-id"⟩
        "image/png" "other.png" "@c:b.example" "b.example" "mediaB").insertAttempts = [] :=
  C4_identity_match_returns_unaltered
    ⟨.ok "/tmp/t9", .ok "hashX", .ok [mediaB], .ok 12, true,
      fun _ => some true, 2000, "generated-id"⟩
    "image/png" "other.png" "@c:b.example" "b.example" "mediaB" "/tmp/t9" "hashX"
    [mediaB] rfl rfl rfl (by decide)

/-- C5: when duplicate-hash records exist but none matches the request's
(origin, mediaId), the record StoreMedia inserts and returns keeps the
hash, size and storage location of the last record of the duplicate list
and takes origin, mediaId, userId, uploadName, contentType and creation
time from the current request. -/
theorem C5_dedup_synthesis_from_last (env : StoreEnv)
    (ct fn uid host mid0 loc hsh : String) (r0 : Media) (rest : List Media)
    (hp : env.persistResult = .ok loc)
    (hh : env.hashResult = .ok hsh)
    (hg : env.getByHashResult = .ok (r0 :: rest))
    (hnone : (r0 :: rest).find?
      (fun m => matchesRequest host (effectiveMediaId env mid0) (isGeneratedId mid0) m) = none)
    (hins : env.insertOk = true) :
    ∃ m, (storeMedia env ct fn uid host mid0).result = .ok m ∧
      (storeMedia env ct fn uid host mid0).insertAttempts = [m] ∧
      m.sha256Hash = ((r0 :: rest).getLastD r0).sha256Hash ∧
      m.sizeBytes = ((r0 :: rest).getLastD r0).sizeBytes ∧
      m.location = ((r0 :: rest).getLastD r0).location ∧
      m.origin = host ∧ m.mediaId = effectiveMediaId env mid0 ∧
      m.userId = uid ∧ m.uploadName = fn ∧ m.contentType = ct ∧
      m.creationTs = env.nowMillis := by
  refine ⟨{ rest.getLastD r0 with
      origin := host
      userId := uid
      mediaId := effectiveMediaId env mid0
      uploadName := fn
      contentType := ct
      creationTs := env.nowMillis }, ?_⟩
  rw [List.getLastD_cons]
  simp [storeMedia, hp, hh, hg, hnone, hins]

/-- C5 witness: ingesting bytes with the hash of mediaB under a fresh
(origin, mediaId) synthesizes a record reusing mediaB's hash, size and
location. -/
theorem C5_dedup_synthesis_witness :
    ∃ m, (storeMedia ⟨.ok "/tmp/t5", .ok "hashX", .ok [mediaB], .ok 12, true,
        fun _ => some true, 3000, "generated-id"⟩
        "text/plain" "c.txt" "@c:c.example" "c.example" "mediaC").result = .ok m ∧
      (storeMedia ⟨.ok "/tmp/t5", .ok "hashX", .ok [mediaB], .ok 12, true,
        fun _ => some true, 3000, "generated-id"⟩
        "text/plain" "c.txt" "@c:c.example" "c.example" "mediaC").insertAttempts = [m] ∧
      m.sha256Hash = (([mediaB]).getLastD mediaB).sha256Hash ∧
      m.sizeBytes = (([mediaB]).getLastD mediaB).sizeBytes ∧
      m.location = (([mediaB]).getLastD mediaB).location ∧
      m.origin = "c.example" ∧
      m.mediaId = effectiveMediaId ⟨.ok "/tmp/t5", .ok "hashX", .ok [mediaB], .ok 12, true,
        fun _ => some true, 3000, "generated-id"⟩ "mediaC" ∧
      m.userId = "@c:c.example" ∧ m.uploadName = "c.txt" ∧ m.contentType = "text/plain" ∧
      m.creationTs = (⟨.ok "/tmp/t5", .ok "hashX", .ok [mediaB], .ok 12, true,
        fun _ => some true, 3000, "generated-id"⟩ : StoreEnv).nowMillis :=
  C5_dedup_synthesis_from_last
    ⟨.ok "/tmp/t5", .ok "hashX", .ok [mediaB], .ok 12, true,
      fun _ => some true, 3000, "generated-id"⟩
    "text/plain" "c.txt" "@c:c.example" "c.example" "mediaC" "/tmp/t5" "hashX"
    mediaB [] rfl rfl rfl (by decide) rfl

/-- C6 counterexample: the claim states a response whose Content-Type
matches at least one supplied pattern does not fail with the
unsupported-content-type error. Here "text/html" matches the first
pattern "text/\x2a" yet the fetch fails with that error, because the loop
requires every supplied pattern to match. -/
theorem C6_counterexample :
    glob "text/*".toList "text/html".toList = true ∧
    downloadRawContent ⟨200, -1, "text/html".toList, 100, none⟩
        ["text/*".toList, "image/*".toList] 1000 = .error .previewUnsupported := by
  decide

/-- C6 amended: for a status-200 response that clears the size ceiling,
downloadRawContent fails with the unsupported-content-type error exactly
when at least one supplied glob pattern fails to match the response's
Content-Type — the supplied patterns are conjunctive requirements, not
alternatives. -/
theorem C6_amended_conjunctive_patterns (resp : Response)
    (types : List (List Char)) (max : Int)
    (h200 : resp.statusCode = 200)
    (hsize : ¬(max > 0 ∧ resp.contentLength ≥ 0 ∧ resp.contentLength > max)) :
    (downloadRawContent resp types max = .error .previewUnsupported ↔
      ¬∀ t ∈ types, glob t resp.contentType = true) := by
  unfold downloadRawContent
  rw [if_neg (by simp [h200]), if_neg hsize]
  by_cases hall : types.all (fun t => glob t resp.contentType) = true
  · rw [if_pos hall]
    simp only [List.all_eq_true] at hall
    exact iff_of_false (by simp) (not_not_intro hall)
  · rw [if_neg hall]
    simp only [List.all_eq_true] at hall
    simp [hall]

/-- C6 amended witness: with patterns "text/\x2a" and "image/\x2a" against
Content-Type "text/html", the type check fails. -/
theorem C6_amended_witness :
    downloadRawContent ⟨200, -1, "text/html".toList, 100, none⟩
        ["text/*".toList, "image/*".toList] 1000 = .error .previewUnsupported ↔
      ¬∀ t ∈ [("text/*".toList : List Char), "image/*".toList],
        glob t ("text/html".toList : List Char) = true :=
  C6_amended_conjunctive_patterns ⟨200, -1, "text/html".toList, 100, none⟩
    ["text/*".toList, "image/*".toList] 1000 (by decide) (by decide)

/-- C7 counterexample: the claim states that with a configured maximum
any response declaring a non-negative Content-Length above the maximum
fails with the media-too-large error. A non-200 response declaring such a
length fails earlier, with the generic transfer error instead. -/
theorem C7_counterexample :
    (10 : Int) > 0 ∧
    (⟨500, 100, [], 200, none⟩ : Response).contentLength ≥ 0 ∧
    (⟨500, 100, [], 200, none⟩ : Response).contentLength > 10 ∧
    downloadRawContent ⟨500, 100, [], 200, none⟩ [] 10 = .error .transferError ∧
    downloadRawContent ⟨500, 100, [], 200, none⟩ [] 10 ≠ .error .mediaTooLarge := by
  decide

/-- C7 amended: with a configured maximum page size, a status-200
response declaring a non-negative Content-Length strictly above the
maximum fails with the media-too-large error before the body is read; and
whenever downloadRawContent returns a result, its stream yields at most
the configured maximum number of bytes, regardless of the actual body
length. -/
theorem C7_amended_size_ceiling (resp : Response) (types : List (List Char))
    (max : Int) (hmax : max > 0) :
    (resp.statusCode = 200 → resp.contentLength ≥ 0 → resp.contentLength > max →
      downloadRawContent resp types max = .error .mediaTooLarge) ∧
    (∀ out, downloadRawContent resp types max = .ok out →
      ∃ n, out.reader = some n ∧ (n : Int) ≤ max) := by
  constructor
  · intro h200 hcl hgt
    unfold downloadRawContent
    rw [if_neg (by simp [h200]), if_pos ⟨hmax, hcl, hgt⟩]
  · intro out hout
    unfold downloadRawContent at hout
    by_cases h200 : resp.statusCode ≠ 200
    · rw [if_pos h200] at hout
      exact absurd hout (by simp)
    · rw [if_neg h200] at hout
      by_cases hbig : max > 0 ∧ resp.contentLength ≥ 0 ∧ resp.contentLength > max
      · rw [if_pos hbig] at hout
        exact absurd hout (by simp)
      · rw [if_neg hbig] at hout
        simp only [] at hout
        rw [if_pos hmax] at hout
        by_cases hall : (types.all fun t => glob t resp.contentType) = true
        · rw [if_pos hall] at hout
          refine ⟨limitReader resp.bodyLen max, ?_, ?_⟩
          · rw [(Except.ok.injEq _ _).mp hout.symm]
          · unfold limitReader
            have h1 : min resp.bodyLen max.toNat ≤ max.toNat := Nat.min_le_right _ _
            have h2 : ((max.toNat : Nat) : Int) = max := Int.toNat_of_nonneg (le_of_lt hmax)
            calc ((min resp.bodyLen max.toNat : Nat) : Int)
                ≤ ((max.toNat : Nat) : Int) := by exact_mod_cast h1
              _ = max := h2
        · rw [if_neg hall] at hout
          exact absurd hout (by simp)

/-- C7 amended witness: a 200 response declaring 100 bytes against a
10-byte ceiling is rejected as too large. -/
theorem C7_amended_witness :
    downloadRawContent ⟨200, 100, [], 200, none⟩ [] 10 = .error .mediaTooLarge :=
  (C7_amended_size_ceiling ⟨200, 100, [], 200, none⟩ [] 10 (by decide)).1
    (by decide) (by decide) (by decide)

/-- C9: the claim states every error-free downloadRawContent call returns
a non-nil byte stream, in particular when no maximum page size is
configured. The code violates this: with MaxPageSizeBytes ≤ 0 the
`reader` variable is never assigned and the nil reader is returned, so
downloadHtmlContent's unconditional Close/ReadAll dereferences nil.
Evaluated here at a concrete unlimited-configuration call. -/
theorem C9_unlimited_config_returns_nil_reader :
    downloadRawContent ⟨200, -1, "text/html".toList, 5000, none⟩
        ["text/*".toList] 0 = .ok ⟨none, "", "text/html".toList⟩ := by
  decide

/-- C10 counterexample: the claim states the error returned for a non-200
status carries that status code. The code returns the one payload-free
error value errors.New("error during transfer") whatever the status: a
404 and a 500 response produce identical errors, so the error carries no
status code. -/
theorem C10_counterexample :
    downloadRawContent ⟨404, -1, [], 10, none⟩ [] 0 = .error .transferError ∧
    downloadRawContent ⟨500, -1, [], 10, none⟩ [] 0 = .error .transferError ∧
    downloadRawContent ⟨404, -1, [], 10, none⟩ [] 0
      = downloadRawContent ⟨500, -1, [], 10, none⟩ [] 0 := by
  decide

/-- C10 amended: every response with a status other than 200 makes both
downloadRawContent and downloadImage fail, with the generic transfer
error that does not carry the status code (the status is only logged);
for status 200 neither fails on account of status. -/
theorem C10_amended_status_gate (resp : Response) (types : List (List Char))
    (max : Int) :
    (resp.statusCode ≠ 200 →
      downloadRawContent resp types max = .error .transferError ∧
      downloadImage resp = .error .transferError) ∧
    (resp.statusCode = 200 →
      downloadRawContent resp types max ≠ .error .transferError ∧
      downloadImage resp ≠ .error .transferError) := by
  constructor
  · intro h
    constructor
    · unfold downloadRawContent
      rw [if_pos h]
    · unfold downloadImage
      rw [if_pos h]
  · intro h
    constructor
    · unfold downloadRawContent
      rw [if_neg (by simp [h])]
      split
      · simp
      · simp only []
        split <;> (try split) <;> simp
    · unfold downloadImage
      rw [if_neg (by simp [h])]
      simp

/-- C10 amended witness: a 404 response fails both fetch paths with the
status-free transfer error. -/
theorem C10_amended_witness :
    downloadRawContent ⟨404, -1, [], 10, none⟩ [] 0 = .error .transferError ∧
    downloadImage ⟨404, -1, [], 10, none⟩ = .error .transferError :=
  (C10_amended_status_gate ⟨404, -1, [], 10, none⟩ [] 0).1 (by decide)

/-- Registering an extra waiter on an in-flight key prepends it to that
key's waiter list. -/
theorem lookupWaiters_addWaiter (l : List (Key × List Nat)) (k : Key) (c : Nat)
    (ws : List Nat) (h : lookupWaiters l k = some ws) :
    lookupWaiters (addWaiter l k c) k = some (c :: ws) := by
  induction l with
  | nil => simp [lookupWaiters] at h
  | cons p rest ih =>
    obtain ⟨k1, ws1⟩ := p
    by_cases hk : k1 = k
    · subst hk
      simp [lookupWaiters, addWaiter] at h ⊢
      exact h
    · simp [lookupWaiters, addWaiter, hk] at h ⊢
      exact ih h

/-- Requests for a key that is already in flight only accumulate waiters:
no fetch is started, nothing is delivered, and the waiter list grows by
the requesting callers. -/
theorem run_requests_in_flight (k : Key) (cs : List Nat) :
    ∀ (s : HState) (ws : List Nat), lookupWaiters s.inFlight k = some ws →
      lookupWaiters (run s (cs.map (HEvent.request k))).inFlight k
          = some (cs.reverse ++ ws) ∧
      (run s (cs.map (HEvent.request k))).fetchesStarted = s.fetchesStarted ∧
      (run s (cs.map (HEvent.request k))).delivered = s.delivered := by
  induction cs with
  | nil =>
    intro s ws h
    exact ⟨by simpa [run] using h, rfl, rfl⟩
  | cons c rest ih =>
    intro s ws h
    have hstep : step s (.request k c) = { s with inFlight := addWaiter s.inFlight k c } := by
      simp [step, h]
    have hrun : run s ((c :: rest).map (HEvent.request k))
        = run (step s (.request k c)) (rest.map (HEvent.request k)) := rfl
    have hlook : lookupWaiters (step s (.request k c)).inFlight k = some (c :: ws) := by
      rw [hstep]
      exact lookupWaiters_addWaiter _ _ _ _ h
    obtain ⟨h1, h2, h3⟩ := ih (step s (.request k c)) (c :: ws) hlook
    refine ⟨?_, ?_, ?_⟩
    · rw [hrun, h1]
      simp
    · rw [hrun, h2, hstep]
    · rw [hrun, h3, hstep]

/-- C8: spec-modelled coalescing of the resource handler registry. From a
state where (origin, mediaId) is not in flight, a batch of K ≥ 1 requests
for that key starts exactly one outbound fetch, and the completion of
that single fetch delivers its one result to every one of the K
callers. -/
theorem C8_coalescing (k : Key) (c0 : Nat) (rest : List Nat) (r : DlResult)
    (s0 : HState) (h0 : lookupWaiters s0.inFlight k = none) :
    (run s0 ((c0 :: rest).map (HEvent.request k))).fetchesStarted.count k
        = s0.fetchesStarted.count k + 1 ∧
    (step (run s0 ((c0 :: rest).map (HEvent.request k))) (.complete k r)).fetchesStarted.count k
        = s0.fetchesStarted.count k + 1 ∧
    ∀ c ∈ c0 :: rest,
      (c, k, r) ∈ (step (run s0 ((c0 :: rest).map (HEvent.request k))) (.complete k r)).delivered := by
  have hstep0 : step s0 (.request k c0)
      = { s0 with
          inFlight := (k, [c0]) :: s0.inFlight
          fetchesStarted := k :: s0.fetchesStarted } := by
    simp [step, h0]
  have hrun : run s0 ((c0 :: rest).map (HEvent.request k))
      = run (step s0 (.request k c0)) (rest.map (HEvent.request k)) := rfl
  have hlook : lookupWaiters (step s0 (.request k c0)).inFlight k = some [c0] := by
    rw [hstep0]
    simp [lookupWaiters]
  obtain ⟨h1, h2, _⟩ := run_requests_in_flight k rest (step s0 (.request k c0)) [c0] hlook
  have hfetch : (run s0 ((c0 :: rest).map (HEvent.request k))).fetchesStarted
      = k :: s0.fetchesStarted := by
    rw [hrun, h2, hstep0]
  have hcount : (run s0 ((c0 :: rest).map (HEvent.request k))).fetchesStarted.count k
      = s0.fetchesStarted.count k + 1 := by
    rw [hfetch]
    simp [List.count_cons]
  have h1' : lookupWaiters (run s0 ((c0 :: rest).map (HEvent.request k))).inFlight k
      = some (rest.reverse ++ [c0]) := by
    rw [hrun]
    exact h1
  refine ⟨hcount, ?_, ?_⟩
  · simp only [step, h1']
    exact hcount
  · intro c hc
    simp only [step, h1']
    have hmem : c ∈ rest.reverse ++ [c0] := by
      rcases List.mem_cons.mp hc with hceq | hcr
      · subst hceq
        exact List.mem_append_right _ (List.mem_singleton.mpr rfl)
      · exact List.mem_append_left _ (List.mem_reverse.mpr hcr)
    exact List.mem_append_left _ (List.mem_map_of_mem _ hmem)

/-- C8 witness: three concurrent requests for one key coalesce into one
fetch whose result every caller receives. -/
theorem C8_coalescing_witness :
    (run ⟨[], [], []⟩ (([1, 2, 3] : List Nat).map (HEvent.request ⟨"matrix.org", "abc"⟩))).fetchesStarted.count ⟨"matrix.org", "abc"⟩
        = (⟨[], [], []⟩ : HState).fetchesStarted.count ⟨"matrix.org", "abc"⟩ + 1 ∧
    (step (run ⟨[], [], []⟩ (([1, 2, 3] : List Nat).map (HEvent.request ⟨"matrix.org", "abc"⟩)))
        (.complete ⟨"matrix.org", "abc"⟩ (.error .insertFailed))).fetchesStarted.count ⟨"matrix.org", "abc"⟩
        = (⟨[], [], []⟩ : HState).fetchesStarted.count ⟨"matrix.org", "abc"⟩ + 1 ∧
    ∀ c ∈ ([1, 2, 3] : List Nat),
      (c, (⟨"matrix.org", "abc"⟩ : Key), (.error .insertFailed : DlResult)) ∈
        (step (run ⟨[], [], []⟩ (([1, 2, 3] : List Nat).map (HEvent.request ⟨"matrix.org", "abc"⟩)))
          (.complete ⟨"matrix.org", "abc"⟩ (.error .insertFailed))).delivered :=
  C8_coalescing ⟨"matrix.org", "abc"⟩ 1 [2, 3] (.error .insertFailed) ⟨[], [], []⟩ rfl
